import Mathlib

/-!
# Verification of the Darts-App X01 scoring core

A shallow embedding of the X01 scoring engine (`src/scoring/scoringEngine.ts`),
the checkout-suggestion table (`src/constants/index.ts`) and the bot visit
simulator (`src/scoring/botEngine.ts`), together with proofs of the
behavioural properties stated in the specification.

Modelling conventions:
* JavaScript numbers holding scores are modelled as `ℤ` (visit scores and
  remaining scores may in principle be negative integers at the API boundary);
  counters (`legs`, `sets`, `dartsThrown`, `targetLegs`) are modelled as `ℕ`.
* Averages and the bot's random draws are modelled as `ℚ`; `Math.round` is
  `round` (both round halves towards positive infinity) and `Math.floor` is
  `Int.floor`.
* The bot's Box–Muller normal deviate is abstracted as an arbitrary rational
  draw; the uniform draws feeding `Math.floor(Math.random() * k)` expressions
  are kept as rationals in `[0, 1)` so the floor computations stay faithful.
-/

namespace DartsApp

/-! ## Data model (`src/types/index.ts`, `src/constants/index.ts`) -/

inductive MatchType where
  | first_to
  | best_of
deriving Repr, DecidableEq

structure MatchConfig where
  startingScore : ℤ
  matchType : MatchType
  targetLegs : ℕ
  doubleOut : Bool := true
deriving Repr, DecidableEq

structure MatchStats where
  scores_65_plus : ℕ
  scores_90_plus : ℕ
  scores_100_plus : ℕ
  scores_140_plus : ℕ
  scores_170_plus : ℕ
  scores_180 : ℕ
  best_leg : Option ℕ
  average : ℚ
  highest_checkout : Option ℤ := none
  visit_history : List ℤ := []
deriving Repr, DecidableEq

/-- `INITIAL_MATCH_STATS` from `src/constants/index.ts`. -/
def INITIAL_MATCH_STATS : MatchStats :=
  { scores_65_plus := 0
    scores_90_plus := 0
    scores_100_plus := 0
    scores_140_plus := 0
    scores_170_plus := 0
    scores_180 := 0
    best_leg := none
    average := 0 }

structure PlayerState where
  id : Option String := none
  name : String
  score : ℤ
  legs : ℕ
  sets : ℕ
  history : List ℤ
  matchHistory : List ℤ
  stats : MatchStats
  dartsThrown : ℕ
deriving Repr, DecidableEq

structure ThrowResult where
  success : Bool
  newScore : ℤ
  isBust : Bool
  isLegWon : Bool
  isMatchWon : Bool
  message : Option String := none
deriving Repr, DecidableEq

/-- `MAX_SCORE` from `src/constants/index.ts`. -/
def MAX_SCORE : ℤ := 180

/-! ## Scoring engine (`src/scoring/scoringEngine.ts`)

The TypeScript class `DartsScoringEngine` carries its `MatchConfig` (with
`doubleOut` defaulted to `true`) and the derived `legsNeeded`; here the
config is passed explicitly to each method. -/

/-- The pre-computed `legsNeeded` from the `DartsScoringEngine` constructor:
`targetLegs` for `first_to`, `Math.ceil(targetLegs / 2)` for `best_of`. -/
def legsNeeded (cfg : MatchConfig) : ℕ :=
  match cfg.matchType with
  | .first_to => cfg.targetLegs
  | .best_of => (cfg.targetLegs + 1) / 2

/-- `DartsScoringEngine.createPlayerState`. -/
def createPlayerState (cfg : MatchConfig) (name : String) (id : Option String := none) :
    PlayerState :=
  { id := id
    name := name
    score := cfg.startingScore
    legs := 0
    sets := 0
    history := []
    matchHistory := []
    stats := INITIAL_MATCH_STATS
    dartsThrown := 0 }

/-- `DartsScoringEngine.isBust`: went negative or left exactly 1. -/
def isBustScore (newScore : ℤ) : Bool :=
  newScore < 0 || newScore == 1

/-- `DartsScoringEngine.processThrow`. -/
def processThrow (cfg : MatchConfig) (player : PlayerState) (scoreThrown : ℤ) :
    ThrowResult :=
  if scoreThrown < 0 || MAX_SCORE < scoreThrown then
    { success := false
      newScore := player.score
      isBust := false
      isLegWon := false
      isMatchWon := false
      message := some "Invalid score. Maximum is 180." }
  else
    let newScore := player.score - scoreThrown
    if isBustScore newScore then
      { success := true
        newScore := player.score
        isBust := true
        isLegWon := false
        isMatchWon := false
        message := some "Bust!" }
    else if newScore == 0 then
      let isMatchWon : Bool := decide (legsNeeded cfg ≤ player.legs + 1)
      { success := true
        newScore := 0
        isBust := false
        isLegWon := true
        isMatchWon := isMatchWon
        message := some (if isMatchWon then "Match won!" else "Leg won!") }
    else
      { success := true
        newScore := newScore
        isBust := false
        isLegWon := false
        isMatchWon := false }

/-- `DartsScoringEngine.updateStats`: single-pass bucket update. -/
def updateStats (stats : MatchStats) (scoreThrown : ℤ) : MatchStats :=
  { stats with
    scores_180 := stats.scores_180 + (if scoreThrown == 180 then 1 else 0)
    scores_170_plus :=
      stats.scores_170_plus + (if 170 ≤ scoreThrown ∧ scoreThrown < 180 then 1 else 0)
    scores_140_plus :=
      stats.scores_140_plus + (if 140 ≤ scoreThrown ∧ scoreThrown < 170 then 1 else 0)
    scores_100_plus :=
      stats.scores_100_plus + (if 100 ≤ scoreThrown ∧ scoreThrown < 140 then 1 else 0)
    scores_90_plus :=
      stats.scores_90_plus + (if 90 ≤ scoreThrown ∧ scoreThrown < 100 then 1 else 0)
    scores_65_plus :=
      stats.scores_65_plus + (if 65 ≤ scoreThrown ∧ scoreThrown < 90 then 1 else 0) }

/-- `DartsScoringEngine.calculateAverage`:
`Math.round((total / matchHistory.length) * 100) / 100`, 0 on empty history. -/
def calculateAverage (matchHistory : List ℤ) : ℚ :=
  if matchHistory.length = 0 then 0
  else ((round (((matchHistory.sum : ℚ) / (matchHistory.length : ℚ)) * 100) : ℤ) : ℚ) / 100

/-- `DartsScoringEngine.updateBestLeg`. -/
def updateBestLeg (stats : MatchStats) (dartsThrown : ℕ) : MatchStats :=
  match stats.best_leg with
  | none => { stats with best_leg := some dartsThrown }
  | some b => if dartsThrown < b then { stats with best_leg := some dartsThrown } else stats

/-- The truthiness test `!newStats.highest_checkout` from `applyThrow`:
`undefined` and `0` are both falsy in JavaScript. -/
def highestCheckoutFalsy (o : Option ℤ) : Bool :=
  match o with
  | none => true
  | some v => v == 0

/-- `DartsScoringEngine.applyThrow`: immutable state transition. -/
def applyThrow (cfg : MatchConfig) (player : PlayerState) (scoreThrown : ℤ) :
    PlayerState × ThrowResult :=
  let result := processThrow cfg player scoreThrown
  if !result.success then
    (player, result)
  else if result.isBust then
    ({ player with dartsThrown := player.dartsThrown + 3 }, result)
  else if result.isLegWon then
    let finalDarts := player.dartsThrown + 3
    let newHistory := player.history ++ [scoreThrown]
    let newMatchHistory := player.matchHistory ++ [scoreThrown]
    let stats1 := updateStats player.stats scoreThrown
    let stats2 := updateBestLeg stats1 finalDarts
    let stats3 :=
      if highestCheckoutFalsy stats2.highest_checkout
          || decide (stats2.highest_checkout.getD 0 < player.score) then
        { stats2 with highest_checkout := some player.score }
      else stats2
    let stats4 := { stats3 with
      average := calculateAverage newMatchHistory
      visit_history := newMatchHistory }
    ({ player with
        score := 0
        legs := player.legs + 1
        history := newHistory
        matchHistory := newMatchHistory
        stats := stats4
        dartsThrown := 0 }, result)
  else
    let newHistory := player.history ++ [scoreThrown]
    let newMatchHistory := player.matchHistory ++ [scoreThrown]
    let stats1 := updateStats player.stats scoreThrown
    let stats2 := { stats1 with
      average := calculateAverage newMatchHistory
      visit_history := newMatchHistory }
    ({ player with
        score := result.newScore
        history := newHistory
        matchHistory := newMatchHistory
        stats := stats2
        dartsThrown := player.dartsThrown + 3 }, result)

/-- `DartsScoringEngine.resetForNewLeg`. -/
def resetForNewLeg (cfg : MatchConfig) (player : PlayerState) : PlayerState :=
  { player with
    score := cfg.startingScore
    history := []
    dartsThrown := 0 }

/-- `DartsScoringEngine.resetForNewMatch`. -/
def resetForNewMatch (cfg : MatchConfig) (player : PlayerState) : PlayerState :=
  { player with
    score := cfg.startingScore
    legs := 0
    sets := 0
    history := []
    matchHistory := []
    stats := INITIAL_MATCH_STATS
    dartsThrown := 0 }

/-! ## Checkout suggestions (`src/constants/index.ts`) -/

/-- `CHECKOUT_TABLE`: the frozen map of remaining score to suggested finish. -/
def CHECKOUT_TABLE : List (ℤ × String) :=
  [(170, "T20 T20 Bull"), (167, "T20 T19 Bull"), (164, "T20 T18 Bull"),
   (161, "T20 T17 Bull"), (160, "T20 T20 D20"), (158, "T20 T20 D19"),
   (157, "T20 T19 D20"), (156, "T20 T20 D18"), (155, "T20 T19 D19"),
   (154, "T20 T18 D20"), (153, "T20 T19 D18"), (152, "T20 T20 D16"),
   (151, "T20 T17 D20"), (150, "T20 T18 D18"), (148, "T20 T20 D14"),
   (147, "T20 T17 D18"), (146, "T20 T18 D16"), (145, "T20 T15 D20"),
   (144, "T20 T20 D12"), (143, "T20 T17 D16"), (142, "T20 T14 D20"),
   (141, "T20 T19 D12"), (140, "T20 T20 D10"), (139, "T19 T14 D20"),
   (138, "T20 T18 D12"), (137, "T20 T19 D10"), (136, "T20 T20 D8"),
   (135, "T20 T17 D12"), (134, "T20 T14 D16"), (133, "T20 T19 D8"),
   (132, "T20 T16 D12"), (131, "T20 T13 D16"), (130, "T20 T18 D8"),
   (129, "T19 T16 D12"), (128, "T18 T14 D16"), (127, "T20 T17 D8"),
   (126, "T19 T19 D6"), (125, "T18 T19 D7"), (124, "T20 T14 D11"),
   (123, "T19 T16 D9"), (122, "T18 T18 D7"), (121, "T17 T10 D20"),
   (120, "T20 S20 D20"), (119, "T19 T12 D13"), (118, "T20 S18 D20"),
   (117, "T20 S17 D20"), (116, "T20 S16 D20"), (115, "T19 S18 D20"),
   (114, "T20 S14 D20"), (113, "T19 S16 D20"), (112, "T20 S12 D20"),
   (111, "T19 S14 D20"), (110, "T20 S10 D20"), (109, "T19 S12 D20"),
   (108, "T20 S8 D20"), (107, "T19 S10 D20"), (106, "T20 S6 D20"),
   (105, "T19 S8 D20"), (104, "T18 S10 D20"), (103, "T19 S6 D20"),
   (102, "T20 S10 D16"), (101, "T17 S10 D20"), (100, "T20 D20"),
   (99, "T19 S10 D16"), (98, "T20 D19"), (97, "T19 D20"), (96, "T20 D18"),
   (95, "T19 D19"), (94, "T18 D20"), (93, "T19 D18"), (92, "T20 D16"),
   (91, "T17 D20"), (90, "T18 D18"), (89, "T19 D16"), (88, "T20 D14"),
   (87, "T17 D18"), (86, "T18 D16"), (85, "T15 D20"), (84, "T20 D12"),
   (83, "T17 D16"), (82, "T14 D20"), (81, "T19 D12"), (80, "T20 D10"),
   (79, "T19 D11"), (78, "T18 D12"), (77, "T19 D10"), (76, "T20 D8"),
   (75, "T17 D12"), (74, "T14 D16"), (73, "T19 D8"), (72, "T16 D12"),
   (71, "T13 D16"), (70, "T18 D8"), (69, "T19 D6"), (68, "T20 D4"),
   (67, "T17 D8"), (66, "T10 D18"), (65, "T19 D4"), (64, "T16 D8"),
   (63, "T13 D12"), (62, "T10 D16"), (61, "T15 D8"), (60, "S20 D20"),
   (59, "S19 D20"), (58, "S18 D20"), (57, "S17 D20"), (56, "T16 D4"),
   (55, "S15 D20"), (54, "S14 D20"), (53, "S13 D20"), (52, "S12 D20"),
   (51, "S11 D20"), (50, "S10 D20"), (49, "S9 D20"), (48, "S8 D20"),
   (47, "S7 D20"), (46, "S6 D20"), (45, "S13 D16"), (44, "S4 D20"),
   (43, "S3 D20"), (42, "S10 D16"), (41, "S9 D16"), (40, "D20"),
   (38, "D19"), (36, "D18"), (34, "D17"), (32, "D16"), (30, "D15"),
   (28, "D14"), (26, "D13"), (24, "D12"), (22, "D11"), (20, "D10"),
   (18, "D9"), (16, "D8"), (14, "D7"), (12, "D6"), (10, "D5"),
   (8, "D4"), (6, "D3"), (4, "D2"), (2, "D1")]

/-- `getCheckoutSuggestion` from `src/constants/index.ts`:
`CHECKOUT_TABLE[score] ?? null`. -/
def getCheckoutSuggestion (score : ℤ) : Option String :=
  CHECKOUT_TABLE.lookup score

/-- `INVALID_CHECKOUTS` from `src/constants/index.ts`: the seven scores in
[159,169] unreachable with three darts under double-out. -/
def INVALID_CHECKOUTS : List ℤ := [159, 162, 163, 165, 166, 168, 169]

/-! ## Darts reachability (formalising the claim's notion of a score being
"reachable in three darts", from the rules of darts: each dart scores a
single 1–20, a double, a treble, 25 or bull, or misses; a checkout ends on a
double, the bull counting as a double). Not part of the repository's code —
this is the vocabulary the specification's checkout claims are stated in. -/

/-- The scores a single dart can contribute: a miss, singles 1–20, doubles,
trebles, the outer 25 and the bull. -/
def dartValues : List ℤ :=
  0 :: 25 :: 50 ::
    ((List.range 20).map (fun n => (n : ℤ) + 1)
      ++ (List.range 20).map (fun n => 2 * ((n : ℤ) + 1))
      ++ (List.range 20).map (fun n => 3 * ((n : ℤ) + 1)))

/-- The scores the final dart of a double-out checkout can have: D1–D20 or
the bull. -/
def finishDoubles : List ℤ :=
  50 :: (List.range 20).map (fun n => 2 * ((n : ℤ) + 1))

/-- A remaining score is reachable in three darts (double-out): two arbitrary
darts plus a final double sum to it. -/
def CheckoutReachable (s : ℤ) : Prop :=
  ∃ a ∈ dartValues, ∃ b ∈ dartValues, ∃ d ∈ finishDoubles, a + b + d = s

/-! ## Bot engine (`src/scoring/botEngine.ts`) -/

structure BotLevel where
  id : ℕ
  name : String
  displayName : String
  avg : ℚ
  checkoutRate : ℚ
  consistency : ℚ
deriving Repr, DecidableEq

/-- `BOT_LEVELS`: the frozen catalogue of six difficulty profiles. -/
def BOT_LEVELS : List BotLevel :=
  [{ id := 1, name := "beginner", displayName := "Beginner",
     avg := 30, checkoutRate := 1/20, consistency := 30 },
   { id := 2, name := "pub_player", displayName := "Pub Player",
     avg := 45, checkoutRate := 3/20, consistency := 28 },
   { id := 3, name := "super_league", displayName := "Super League",
     avg := 60, checkoutRate := 3/10, consistency := 25 },
   { id := 4, name := "county", displayName := "County",
     avg := 75, checkoutRate := 1/2, consistency := 22 },
   { id := 5, name := "pro", displayName := "Professional",
     avg := 95, checkoutRate := 3/4, consistency := 18 },
   { id := 6, name := "dartbot_3000", displayName := "Dartbot 3000",
     avg := 110, checkoutRate := 9/10, consistency := 12 }]

/-- `GOOD_LEAVES` from `src/scoring/botEngine.ts`. -/
def GOOD_LEAVES : List ℤ := [32, 40, 36, 24, 16, 20, 8]

/-- One call's worth of random draws for the bot engine. `roll`, `uVariance`
and `uLeave` stand for `Math.random()` results (uniform on `[0,1)`); `z` is
the Box–Muller normal deviate `sqrt(-2 ln u1) * cos(2 pi u2)`, abstracted as
an arbitrary rational since it is transcendental in the uniform draws. -/
structure BotDraws where
  roll : ℚ
  uVariance : ℚ
  uLeave : ℚ
  z : ℚ
deriving Repr, DecidableEq

/-- The draws are what `Math.random()` can actually produce (and the
Box–Muller output is a real number, abstracted freely). -/
def BotDraws.Valid (d : BotDraws) : Prop :=
  0 ≤ d.roll ∧ d.roll < 1 ∧ 0 ≤ d.uVariance ∧ d.uVariance < 1 ∧
    0 ≤ d.uLeave ∧ d.uLeave < 1

/-- `DartsBotEngine.getIdealLeave`: 32 for skilled bots, otherwise a random
pick from `GOOD_LEAVES` (7 entries, index `Math.floor(random * 7)`). -/
def getIdealLeave (level : BotLevel) (d : BotDraws) : ℤ :=
  if 80 ≤ level.avg then 32
  else GOOD_LEAVES.getD (⌊d.uLeave * 7⌋).toNat 0

/-- `DartsBotEngine.attemptCheckout`. -/
def attemptCheckout (level : BotLevel) (currentScore : ℤ) (d : BotDraws) : ℤ :=
  if d.roll < level.checkoutRate then
    currentScore
  else if currentScore ≤ 40 then
    let missedScore := ⌊(currentScore : ℚ) / 2⌋
    let variance := ⌊d.uVariance * 10⌋ - 5
    max 0 (missedScore + variance)
  else
    let targetLeave := getIdealLeave level d
    let potential0 := currentScore - targetLeave
    let potential1 := if 180 < potential0 then 100 else potential0
    let potential2 := if potential1 ≤ 0 then 0 else potential1
    let variance := ⌊d.uVariance * 20⌋ - 10
    max 0 (min 180 (potential2 + variance))

/-- `DartsBotEngine.generateScoringVisit`: Box–Muller sample, clamp to
[0,180], then the bust-avoidance override near a finish. -/
def generateScoringVisit (level : BotLevel) (currentScore : ℤ) (d : BotDraws) : ℤ :=
  let score0 := round (level.avg + d.z * level.consistency)
  let score1 := max 0 (min 180 score0)
  if currentScore - score1 ≤ 1 ∧ 40 < currentScore then
    let idealLeave := getIdealLeave level d
    if idealLeave < currentScore then currentScore - idealLeave
    else max 0 (currentScore - 40)
  else score1

/-- `DartsBotEngine.generateScore`. -/
def generateScore (level : BotLevel) (currentScore : ℤ) (d : BotDraws) : ℤ :=
  let canCheckout := currentScore ≤ 170 && !(INVALID_CHECKOUTS.contains currentScore)
  if canCheckout then attemptCheckout level currentScore d
  else generateScoringVisit level currentScore d

/-! ## Branch lemmas for the scoring transition -/

theorem processThrow_invalid (cfg : MatchConfig) (p : PlayerState) (v : ℤ)
    (h : v < 0 ∨ 180 < v) :
    processThrow cfg p v =
      { success := false
        newScore := p.score
        isBust := false
        isLegWon := false
        isMatchWon := false
        message := some "Invalid score. Maximum is 180." } := by
  unfold processThrow
  rw [if_pos]
  simp only [MAX_SCORE, Bool.or_eq_true, decide_eq_true_eq]
  omega

theorem processThrow_bust (cfg : MatchConfig) (p : PlayerState) (v : ℤ)
    (h0 : 0 ≤ v) (h1 : v ≤ 180) (hb : p.score - v < 0 ∨ p.score - v = 1) :
    processThrow cfg p v =
      { success := true
        newScore := p.score
        isBust := true
        isLegWon := false
        isMatchWon := false
        message := some "Bust!" } := by
  unfold processThrow
  rw [if_neg, if_pos]
  · simp only [isBustScore, Bool.or_eq_true, decide_eq_true_eq, beq_iff_eq]
    omega
  · simp only [MAX_SCORE, Bool.or_eq_true, decide_eq_true_eq, not_or]
    omega

theorem processThrow_checkout (cfg : MatchConfig) (p : PlayerState) (v : ℤ)
    (h0 : 0 ≤ v) (h1 : v ≤ 180) (hc : p.score - v = 0) :
    processThrow cfg p v =
      { success := true
        newScore := 0
        isBust := false
        isLegWon := true
        isMatchWon := decide (legsNeeded cfg ≤ p.legs + 1)
        message := some (if decide (legsNeeded cfg ≤ p.legs + 1) then "Match won!"
          else "Leg won!") } := by
  unfold processThrow
  rw [if_neg, if_neg, if_pos]
  · simpa using hc
  · simp only [isBustScore, Bool.or_eq_true, decide_eq_true_eq, beq_iff_eq, not_or]
    omega
  · simp only [MAX_SCORE, Bool.or_eq_true, decide_eq_true_eq, not_or]
    omega

theorem processThrow_normal (cfg : MatchConfig) (p : PlayerState) (v : ℤ)
    (h0 : 0 ≤ v) (h1 : v ≤ 180) (hn : 2 ≤ p.score - v) :
    processThrow cfg p v =
      { success := true
        newScore := p.score - v
        isBust := false
        isLegWon := false
        isMatchWon := false } := by
  unfold processThrow
  rw [if_neg, if_neg, if_neg]
  · simp only [beq_iff_eq]
    omega
  · simp only [isBustScore, Bool.or_eq_true, decide_eq_true_eq, beq_iff_eq, not_or]
    omega
  · simp only [MAX_SCORE, Bool.or_eq_true, decide_eq_true_eq, not_or]
    omega

theorem applyThrow_invalid (cfg : MatchConfig) (p : PlayerState) (v : ℤ)
    (h : v < 0 ∨ 180 < v) :
    applyThrow cfg p v = (p, processThrow cfg p v) := by
  unfold applyThrow
  simp only [processThrow_invalid cfg p v h]
  simp

theorem applyThrow_bust (cfg : MatchConfig) (p : PlayerState) (v : ℤ)
    (h0 : 0 ≤ v) (h1 : v ≤ 180) (hb : p.score - v < 0 ∨ p.score - v = 1) :
    applyThrow cfg p v =
      ({ p with dartsThrown := p.dartsThrown + 3 }, processThrow cfg p v) := by
  unfold applyThrow
  simp only [processThrow_bust cfg p v h0 h1 hb]
  simp

theorem applyThrow_checkout (cfg : MatchConfig) (p : PlayerState) (v : ℤ)
    (h0 : 0 ≤ v) (h1 : v ≤ 180) (hc : p.score - v = 0) :
    applyThrow cfg p v =
      ({ p with
          score := 0
          legs := p.legs + 1
          history := p.history ++ [v]
          matchHistory := p.matchHistory ++ [v]
          stats :=
            let stats2 := updateBestLeg (updateStats p.stats v) (p.dartsThrown + 3)
            let stats3 :=
              if highestCheckoutFalsy stats2.highest_checkout
                  || decide (stats2.highest_checkout.getD 0 < p.score) then
                { stats2 with highest_checkout := some p.score }
              else stats2
            { stats3 with
              average := calculateAverage (p.matchHistory ++ [v])
              visit_history := p.matchHistory ++ [v] }
          dartsThrown := 0 }, processThrow cfg p v) := by
  unfold applyThrow
  simp only [processThrow_checkout cfg p v h0 h1 hc]
  simp

theorem applyThrow_normal (cfg : MatchConfig) (p : PlayerState) (v : ℤ)
    (h0 : 0 ≤ v) (h1 : v ≤ 180) (hn : 2 ≤ p.score - v) :
    applyThrow cfg p v =
      ({ p with
          score := p.score - v
          history := p.history ++ [v]
          matchHistory := p.matchHistory ++ [v]
          stats :=
            { updateStats p.stats v with
              average := calculateAverage (p.matchHistory ++ [v])
              visit_history := p.matchHistory ++ [v] }
          dartsThrown := p.dartsThrown + 3 }, processThrow cfg p v) := by
  unfold applyThrow
  simp only [processThrow_normal cfg p v h0 h1 hn]
  simp

/-! ## Concrete fixtures used by witnesses and counterexamples -/

/-- A standard 501, first-to-3-legs configuration. -/
def cfg501 : MatchConfig :=
  { startingScore := 501, matchType := .first_to, targetLegs := 3 }

/-- A best-of-2-legs configuration (the even `targetLegs` case). -/
def cfgBestOf2 : MatchConfig :=
  { startingScore := 501, matchType := .best_of, targetLegs := 2 }

/-- A player mid-leg with the given remaining score and legs won. -/
def testPlayer (score : ℤ) (legs : ℕ := 0) : PlayerState :=
  { name := "Alice"
    score := score
    legs := legs
    sets := 0
    history := []
    matchHistory := []
    stats := INITIAL_MATCH_STATS
    dartsThrown := 0 }

/-! ## C2 — bust invariance -/

/-- C2: for an in-range visit score whose subtraction would go negative or
leave exactly 1, `applyThrow` keeps `score`, `history`, `matchHistory`,
`legs`, `sets` and `stats` unchanged, adds 3 to `dartsThrown`, and the
result reports `isBust = true`. -/
theorem bust_invariance (cfg : MatchConfig) (p : PlayerState) (v : ℤ)
    (h0 : 0 ≤ v) (h1 : v ≤ 180) (hb : p.score - v < 0 ∨ p.score - v = 1) :
    (applyThrow cfg p v).1.score = p.score ∧
    (applyThrow cfg p v).1.dartsThrown = p.dartsThrown + 3 ∧
    (applyThrow cfg p v).1.history = p.history ∧
    (applyThrow cfg p v).1.matchHistory = p.matchHistory ∧
    (applyThrow cfg p v).1.legs = p.legs ∧
    (applyThrow cfg p v).1.sets = p.sets ∧
    (applyThrow cfg p v).1.stats = p.stats ∧
    (applyThrow cfg p v).2.isBust = true := by
  rw [applyThrow_bust cfg p v h0 h1 hb, processThrow_bust cfg p v h0 h1 hb]
  simp

/-- C2 witness: a player on 41 throwing 40 (leaving 1) busts. -/
theorem bust_invariance_witness :
    (applyThrow cfg501 (testPlayer 41) 40).1.score = (testPlayer 41).score ∧
    (applyThrow cfg501 (testPlayer 41) 40).1.dartsThrown =
      (testPlayer 41).dartsThrown + 3 ∧
    (applyThrow cfg501 (testPlayer 41) 40).1.history = (testPlayer 41).history ∧
    (applyThrow cfg501 (testPlayer 41) 40).1.matchHistory =
      (testPlayer 41).matchHistory ∧
    (applyThrow cfg501 (testPlayer 41) 40).1.legs = (testPlayer 41).legs ∧
    (applyThrow cfg501 (testPlayer 41) 40).1.sets = (testPlayer 41).sets ∧
    (applyThrow cfg501 (testPlayer 41) 40).1.stats = (testPlayer 41).stats ∧
    (applyThrow cfg501 (testPlayer 41) 40).2.isBust = true :=
  bust_invariance cfg501 (testPlayer 41) 40 (by norm_num) (by norm_num)
    (by right; rfl)

/-! ## C3 — any score-zeroing visit wins the leg -/

/-- C3: any in-range visit that brings the score to exactly 0 is accepted as
a leg win (no valid-checkout-set membership is required): `isLegWon = true`,
`newScore = 0`, and `applyThrow` increments `legs`, appends the visit to both
histories, zeroes `score` and resets `dartsThrown`. -/
theorem checkout_zeroing_wins (cfg : MatchConfig) (p : PlayerState) (v : ℤ)
    (h0 : 0 ≤ v) (h1 : v ≤ 180) (hc : p.score - v = 0) :
    (processThrow cfg p v).isLegWon = true ∧
    (processThrow cfg p v).newScore = 0 ∧
    (applyThrow cfg p v).1.legs = p.legs + 1 ∧
    (applyThrow cfg p v).1.history = p.history ++ [v] ∧
    (applyThrow cfg p v).1.matchHistory = p.matchHistory ++ [v] ∧
    (applyThrow cfg p v).1.score = 0 ∧
    (applyThrow cfg p v).1.dartsThrown = 0 := by
  rw [applyThrow_checkout cfg p v h0 h1 hc, processThrow_checkout cfg p v h0 h1 hc]
  simp

/-- C3 witness: checking out 169 — a score outside the valid-checkout set —
still wins the leg. -/
theorem checkout_zeroing_wins_witness :
    (processThrow cfg501 (testPlayer 169) 169).isLegWon = true ∧
    (processThrow cfg501 (testPlayer 169) 169).newScore = 0 ∧
    (applyThrow cfg501 (testPlayer 169) 169).1.legs = (testPlayer 169).legs + 1 ∧
    (applyThrow cfg501 (testPlayer 169) 169).1.history =
      (testPlayer 169).history ++ [169] ∧
    (applyThrow cfg501 (testPlayer 169) 169).1.matchHistory =
      (testPlayer 169).matchHistory ++ [169] ∧
    (applyThrow cfg501 (testPlayer 169) 169).1.score = 0 ∧
    (applyThrow cfg501 (testPlayer 169) 169).1.dartsThrown = 0 :=
  checkout_zeroing_wins cfg501 (testPlayer 169) 169 (by norm_num) (by norm_num)
    (by rfl)

/-! ## C4 — input validation -/

/-- C4: `processThrow` fails exactly on out-of-range visit scores; on failure
the reported score is unchanged, a message is present, and `applyThrow`
returns the input state unchanged; every in-range score succeeds. -/
theorem invalid_visit_rejection (cfg : MatchConfig) (p : PlayerState) (v : ℤ) :
    ((processThrow cfg p v).success = false ↔ (v < 0 ∨ 180 < v)) ∧
    ((v < 0 ∨ 180 < v) →
      (processThrow cfg p v).newScore = p.score ∧
      (processThrow cfg p v).message.isSome = true ∧
      (applyThrow cfg p v).1 = p) ∧
    (0 ≤ v → v ≤ 180 → (processThrow cfg p v).success = true) := by
  by_cases hinv : v < 0 ∨ 180 < v
  · rw [processThrow_invalid cfg p v hinv, applyThrow_invalid cfg p v hinv]
    exact ⟨by simpa using hinv, fun _ => ⟨rfl, rfl, rfl⟩, fun h0 h1 => by omega⟩
  · have h0 : 0 ≤ v := by omega
    have h1 : v ≤ 180 := by omega
    have hsucc : (processThrow cfg p v).success = true := by
      by_cases hb : p.score - v < 0 ∨ p.score - v = 1
      · rw [processThrow_bust cfg p v h0 h1 hb]
      · by_cases hc : p.score - v = 0
        · rw [processThrow_checkout cfg p v h0 h1 hc]
        · rw [processThrow_normal cfg p v h0 h1 (by omega)]
    exact ⟨by simp [hsucc, hinv], fun hcontr => absurd hcontr hinv,
      fun _ _ => hsucc⟩

/-- C4 witness at the out-of-range visit score 181 and a concrete state. -/
theorem invalid_visit_rejection_witness :
    ((processThrow cfg501 (testPlayer 501) 181).success = false ↔
      ((181:ℤ) < 0 ∨ 180 < (181:ℤ))) ∧
    (((181:ℤ) < 0 ∨ 180 < (181:ℤ)) →
      (processThrow cfg501 (testPlayer 501) 181).newScore = (testPlayer 501).score ∧
      (processThrow cfg501 (testPlayer 501) 181).message.isSome = true ∧
      (applyThrow cfg501 (testPlayer 501) 181).1 = testPlayer 501) ∧
    ((0:ℤ) ≤ 181 → (181:ℤ) ≤ 180 →
      (processThrow cfg501 (testPlayer 501) 181).success = true) :=
  invalid_visit_rejection cfg501 (testPlayer 501) 181

/-! ## C9 — average computation -/

/-- Rounding to two decimal places, following the specification's `round2`. -/
def round2 (x : ℚ) : ℚ :=
  ((round (x * 100) : ℤ) : ℚ) / 100

/-- C9: `calculateAverage` returns 0 on an empty history, otherwise
`round2(sum / length)`; it is a pure function (equal calls yield equal
values); and `calculateAverage [100, 140, 60] = 100`. -/
theorem calculateAverage_spec :
    (∀ h : List ℤ, h = [] → calculateAverage h = 0) ∧
    (∀ h : List ℤ, h ≠ [] →
      calculateAverage h = round2 ((h.sum : ℚ) / (h.length : ℚ))) ∧
    (∀ h : List ℤ, calculateAverage h = calculateAverage h) ∧
    calculateAverage [100, 140, 60] = 100 := by
  refine ⟨?_, ?_, fun _ => rfl, ?_⟩
  · intro h hh
    simp [calculateAverage, hh]
  · intro h hh
    rw [calculateAverage, round2, if_neg]
    simpa using hh
  · norm_num [calculateAverage, round_eq]

/-- C9 witness: the non-empty branch applied to the spec's worked example. -/
theorem calculateAverage_spec_witness :
    calculateAverage [100, 140, 60] =
      round2 ((([100, 140, 60] : List ℤ).sum : ℚ) /
        (([100, 140, 60] : List ℤ).length : ℚ)) :=
  calculateAverage_spec.2.1 [100, 140, 60] (by decide)

/-! ## C1 — match-win threshold on a leg-winning throw

The code tests `player.legs + 1 ≥ legsNeeded` with
`legsNeeded = ceil(targetLegs / 2)` for `best_of`. For odd `targetLegs` this
agrees with the claimed strict bound `legs after win > floor(targetLegs / 2)`,
but for even `targetLegs` it does not: with `targetLegs = 2` the very first
leg win already wins the match. -/

/-- C1 counterexample: in a best-of-2 match, a player on 0 legs checking out
gets `isMatchWon = true`, although their legs total after the win (1) is not
strictly greater than `floor(targetLegs / 2) = 1`. -/
theorem matchWin_threshold_counterexample :
    (processThrow cfgBestOf2 (testPlayer 40) 40).isMatchWon = true ∧
    ¬((testPlayer 40).legs + 1 > cfgBestOf2.targetLegs / 2) := by
  constructor
  · rfl
  · decide

/-- C1 (amended): on a leg-winning throw, `isMatchWon = true` iff the legs
total after this win reaches `targetLegs` for `first_to`, and reaches
`ceil(targetLegs / 2)` for `best_of`. -/
theorem matchWin_threshold (cfg : MatchConfig) (p : PlayerState) (v : ℤ)
    (h0 : 0 ≤ v) (h1 : v ≤ 180) (hc : p.score - v = 0) :
    ((processThrow cfg p v).isMatchWon = true ↔
      match cfg.matchType with
      | .first_to => cfg.targetLegs ≤ p.legs + 1
      | .best_of => (cfg.targetLegs + 1) / 2 ≤ p.legs + 1) := by
  rw [processThrow_checkout cfg p v h0 h1 hc]
  simp only [decide_eq_true_eq]
  cases h : cfg.matchType <;> simp [legsNeeded, h]

/-- C1 witness: first-to-3, a player on 2 legs checking out wins the match. -/
theorem matchWin_threshold_witness :
    ((processThrow cfg501 (testPlayer 40 2) 40).isMatchWon = true ↔
      cfg501.targetLegs ≤ (testPlayer 40 2).legs + 1) :=
  matchWin_threshold cfg501 (testPlayer 40 2) 40 (by norm_num) (by norm_num)
    (by rfl)

/-! ## C6 — magnitude-bucket update -/

/-- The six magnitude-bucket counters of a `MatchStats`, in ascending range
order: [65,89], [90,99], [100,139], [140,169], [170,179], exactly 180. -/
def bucketCounts (s : MatchStats) : List ℕ :=
  [s.scores_65_plus, s.scores_90_plus, s.scores_100_plus,
   s.scores_140_plus, s.scores_170_plus, s.scores_180]

/-- The bucket the claim designates for a visit score, chosen by the highest
matching threshold; `none` when no range matches. -/
def claimBucketIndex (v : ℤ) : Option ℕ :=
  if v = 180 then some 5
  else if 170 ≤ v then some 4
  else if 140 ≤ v then some 3
  else if 100 ≤ v then some 2
  else if 90 ≤ v then some 1
  else if 65 ≤ v then some 0
  else none

/-- C6 counterexample: the in-range visit score 64 increments none of the six
buckets ("exactly one increments" fails below 65). -/
theorem bucket_update_counterexample :
    (0:ℤ) ≤ 64 ∧ (64:ℤ) ≤ 180 ∧
    bucketCounts (updateStats INITIAL_MATCH_STATS 64) =
      bucketCounts INITIAL_MATCH_STATS := by
  refine ⟨by norm_num, by norm_num, ?_⟩
  rfl

/-- Which visit scores `claimBucketIndex` sends to each bucket. -/
theorem claimBucketIndex_iff (v : ℤ) :
    (claimBucketIndex v = some 0 ↔ 65 ≤ v ∧ v < 90) ∧
    (claimBucketIndex v = some 1 ↔ 90 ≤ v ∧ v < 100) ∧
    (claimBucketIndex v = some 2 ↔ 100 ≤ v ∧ v < 140) ∧
    (claimBucketIndex v = some 3 ↔ 140 ≤ v ∧ v < 170) ∧
    (claimBucketIndex v = some 4 ↔ v ≠ 180 ∧ 170 ≤ v) ∧
    (claimBucketIndex v = some 5 ↔ v = 180) := by
  unfold claimBucketIndex
  split_ifs <;> simp <;> omega

/-- C6 (amended): for a visit score in [65,180] `updateStats` increments
exactly the bucket with the highest matching threshold and leaves the other
five unchanged; for a score in [0,64] it leaves all six unchanged. -/
theorem bucket_update (stats : MatchStats) (v : ℤ) (h0 : 0 ≤ v) (h1 : v ≤ 180) :
    (∀ j, j < 6 →
      (bucketCounts (updateStats stats v)).getD j 0 =
        (bucketCounts stats).getD j 0 +
          (if claimBucketIndex v = some j then 1 else 0)) ∧
    (65 ≤ v → ∃ j, claimBucketIndex v = some j) ∧
    (v < 65 → claimBucketIndex v = none) := by
  obtain ⟨i0, i1, i2, i3, i4, i5⟩ := claimBucketIndex_iff v
  refine ⟨?_, ?_, ?_⟩
  · intro j hj
    interval_cases j
    all_goals
      simp only [bucketCounts, updateStats, List.getD_cons_zero,
        List.getD_cons_succ, beq_iff_eq, i0, i1, i2, i3, i4, i5]
    all_goals split_ifs
    all_goals omega
  · intro h65
    simp only [claimBucketIndex]
    split_ifs <;> exact ⟨_, rfl⟩
  · intro h65
    simp only [claimBucketIndex]
    split_ifs <;> first | rfl | omega

/-- C6 witness: a maximum visit of 180 increments only the 180 bucket. -/
theorem bucket_update_witness :
    (∀ j, j < 6 →
      (bucketCounts (updateStats INITIAL_MATCH_STATS 180)).getD j 0 =
        (bucketCounts INITIAL_MATCH_STATS).getD j 0 +
          (if claimBucketIndex 180 = some j then 1 else 0)) ∧
    (65 ≤ (180:ℤ) → ∃ j, claimBucketIndex 180 = some j) ∧
    ((180:ℤ) < 65 → claimBucketIndex 180 = none) :=
  bucket_update INITIAL_MATCH_STATS 180 (by norm_num) (by norm_num)

/-! ## C5, C10 — invariants of reachable player states -/

/-- The states obtainable from `createPlayerState` by any sequence of
`applyThrow`, `resetForNewLeg` and `resetForNewMatch` calls under a fixed
configuration. -/
inductive Reachable (cfg : MatchConfig) : PlayerState → Prop where
  | create (name : String) (id : Option String) :
      Reachable cfg (createPlayerState cfg name id)
  | throw (p : PlayerState) (v : ℤ) :
      Reachable cfg p → Reachable cfg (applyThrow cfg p v).1
  | newLeg (p : PlayerState) :
      Reachable cfg p → Reachable cfg (resetForNewLeg cfg p)
  | newMatch (p : PlayerState) :
      Reachable cfg p → Reachable cfg (resetForNewMatch cfg p)

/-- One throw preserves the score bounds. -/
theorem applyThrow_score_bounds (cfg : MatchConfig) (p : PlayerState) (v : ℤ)
    (h : 0 ≤ p.score ∧ p.score ≤ cfg.startingScore) :
    0 ≤ (applyThrow cfg p v).1.score ∧
      (applyThrow cfg p v).1.score ≤ cfg.startingScore := by
  by_cases hinv : v < 0 ∨ 180 < v
  · rw [applyThrow_invalid cfg p v hinv]
    exact h
  · have h0 : 0 ≤ v := by omega
    have h1 : v ≤ 180 := by omega
    by_cases hb : p.score - v < 0 ∨ p.score - v = 1
    · rw [applyThrow_bust cfg p v h0 h1 hb]
      exact h
    · by_cases hc : p.score - v = 0
      · rw [applyThrow_checkout cfg p v h0 h1 hc]
        simpa using by omega
      · rw [applyThrow_normal cfg p v h0 h1 (by omega)]
        simpa using by omega

/-- One throw preserves `score = startingScore - sum(history)`. -/
theorem applyThrow_score_history (cfg : MatchConfig) (p : PlayerState) (v : ℤ)
    (h : p.score = cfg.startingScore - p.history.sum) :
    (applyThrow cfg p v).1.score =
      cfg.startingScore - (applyThrow cfg p v).1.history.sum := by
  by_cases hinv : v < 0 ∨ 180 < v
  · rw [applyThrow_invalid cfg p v hinv]
    exact h
  · have h0 : 0 ≤ v := by omega
    have h1 : v ≤ 180 := by omega
    by_cases hb : p.score - v < 0 ∨ p.score - v = 1
    · rw [applyThrow_bust cfg p v h0 h1 hb]
      exact h
    · by_cases hc : p.score - v = 0
      · rw [applyThrow_checkout cfg p v h0 h1 hc]
        simp [List.sum_append]
        omega
      · rw [applyThrow_normal cfg p v h0 h1 (by omega)]
        simp [List.sum_append]
        omega

/-- C5: with a positive starting score, every reachable player state keeps
`0 ≤ score ≤ startingScore`. -/
theorem score_invariant (cfg : MatchConfig) (hpos : 0 < cfg.startingScore)
    (p : PlayerState) (hp : Reachable cfg p) :
    0 ≤ p.score ∧ p.score ≤ cfg.startingScore := by
  induction hp with
  | create name id =>
      refine ⟨?_, ?_⟩
      · simp only [createPlayerState]
        omega
      · simp [createPlayerState]
  | throw q v hq ih => exact applyThrow_score_bounds cfg q v ih
  | newLeg q hq ih =>
      refine ⟨?_, ?_⟩
      · simp only [resetForNewLeg]
        omega
      · simp [resetForNewLeg]
  | newMatch q hq ih =>
      refine ⟨?_, ?_⟩
      · simp only [resetForNewMatch]
        omega
      · simp [resetForNewMatch]

/-- C5 witness: the freshly created 501 player satisfies the bounds. -/
theorem score_invariant_witness :
    0 ≤ (createPlayerState cfg501 "Alice" none).score ∧
      (createPlayerState cfg501 "Alice" none).score ≤ cfg501.startingScore :=
  score_invariant cfg501 (by norm_num [cfg501]) (createPlayerState cfg501 "Alice" none)
    (Reachable.create "Alice" none)

/-- C10: every reachable player state satisfies
`score = startingScore - sum(history)`. -/
theorem score_history_invariant (cfg : MatchConfig) (p : PlayerState)
    (hp : Reachable cfg p) :
    p.score = cfg.startingScore - p.history.sum := by
  induction hp with
  | create name id => simp [createPlayerState]
  | throw q v hq ih => exact applyThrow_score_history cfg q v ih
  | newLeg q hq ih => simp [resetForNewLeg]
  | newMatch q hq ih => simp [resetForNewMatch]

/-- C10 witness: after one ordinary visit of 140 from a fresh 501 state,
`score = 501 - 140`. -/
theorem score_history_invariant_witness :
    (applyThrow cfg501 (createPlayerState cfg501 "Alice" none) 140).1.score =
      cfg501.startingScore -
        (applyThrow cfg501 (createPlayerState cfg501 "Alice" none) 140).1.history.sum :=
  score_history_invariant cfg501 _
    (Reachable.throw (createPlayerState cfg501 "Alice" none) 140
      (Reachable.create "Alice" none))

/-! ## C7 — checkout-suggestion domain -/

/-- A lookup misses when no key matches. -/
theorem lookup_eq_none_of_no_key {l : List (ℤ × String)} {s : ℤ}
    (h : ∀ q ∈ l, q.1 ≠ s) : l.lookup s = none := by
  induction l with
  | nil => rfl
  | cons hd tl ih =>
      obtain ⟨k, val⟩ := hd
      have hne : (s == k) = false :=
        beq_eq_false_iff_ne.mpr (Ne.symm (h (k, val) (List.mem_cons_self _ _)))
      simp only [List.lookup, hne]
      exact ih fun q hq => h q (List.mem_cons_of_mem _ hq)

set_option maxRecDepth 4000 in
/-- Every key of `CHECKOUT_TABLE` lies in [2,170]. -/
theorem checkout_table_keys_bounded :
    ∀ q ∈ CHECKOUT_TABLE, 2 ≤ q.1 ∧ q.1 ≤ 170 := by decide

/-- C7 counterexample: 149 lies in [2,170] and is reachable in three darts
(T19, T20, D16 — and it is not one of the seven unreachable scores), yet
`getCheckoutSuggestion 149 = none`: the table simply has no 149 entry. -/
theorem checkout_suggestion_counterexample :
    CheckoutReachable 149 ∧ (2:ℤ) ≤ 149 ∧ (149:ℤ) ≤ 170 ∧
      149 ∉ INVALID_CHECKOUTS ∧ getCheckoutSuggestion 149 = none := by
  refine ⟨⟨57, ?_, 60, ?_, 32, ?_, ?_⟩, by norm_num, by norm_num, by decide, by rfl⟩
  · decide
  · decide
  · decide
  · norm_num

set_option maxRecDepth 20000 in
set_option maxHeartbeats 1000000 in
/-- C7 (amended): `getCheckoutSuggestion` returns a finish string exactly for
the scores in [2,170] that are not one of the seven three-dart-unreachable
scores, not 149, and not an odd score below 41; it returns `none` everywhere
else (in particular outside [2,170] and on the seven unreachable scores). -/
theorem checkout_suggestion_domain (s : ℤ) :
    (getCheckoutSuggestion s).isSome = true ↔
      (2 ≤ s ∧ s ≤ 170 ∧ s ∉ INVALID_CHECKOUTS ∧ s ≠ 149 ∧
        ¬(s % 2 = 1 ∧ s < 41)) := by
  by_cases hs : 2 ≤ s ∧ s ≤ 170
  · have key : ∀ t ∈ Finset.Icc (2:ℤ) 170,
        ((getCheckoutSuggestion t).isSome = true ↔
          (t ∉ INVALID_CHECKOUTS ∧ t ≠ 149 ∧ ¬(t % 2 = 1 ∧ t < 41))) := by decide
    have := key s (Finset.mem_Icc.mpr hs)
    tauto
  · have hnone : getCheckoutSuggestion s = none := by
      apply lookup_eq_none_of_no_key
      intro q hq
      have := checkout_table_keys_bounded q hq
      omega
    rw [getCheckoutSuggestion] at hnone ⊢
    rw [hnone]
    simp only [Option.isSome_none, Bool.false_eq_true, false_iff]
    intro hcontr
    exact hs ⟨hcontr.1, hcontr.2.1⟩

/-! ## C8 — bot visit-score range -/

/-- `Math.floor(u * k)` for a uniform draw `u ∈ [0,1)` lies in `[0, k-1]`. -/
theorem floor_unit_mul_bounds (u k : ℚ) (hk : 0 < k) (h0 : 0 ≤ u) (h1 : u < 1) :
    0 ≤ ⌊u * k⌋ ∧ ⌊u * k⌋ < k := by
  constructor
  · exact Int.floor_nonneg.mpr (mul_nonneg h0 hk.le)
  · calc (⌊u * k⌋ : ℚ) ≤ u * k := Int.floor_le _
      _ < 1 * k := by nlinarith
      _ = k := one_mul k

/-- With valid draws, the ideal leave is one of the good leaves, hence in
[8,40]. -/
theorem getIdealLeave_bounds (level : BotLevel) (d : BotDraws) (hd : d.Valid) :
    8 ≤ getIdealLeave level d ∧ getIdealLeave level d ≤ 40 := by
  obtain ⟨-, -, -, -, hu0, hu1⟩ := hd
  obtain ⟨hf0, hf1⟩ := floor_unit_mul_bounds d.uLeave 7 (by norm_num) hu0 hu1
  have hf1i : ⌊d.uLeave * (7:ℚ)⌋ < (7:ℤ) := by exact_mod_cast hf1
  unfold getIdealLeave
  split_ifs
  · norm_num
  · have hlt : (⌊d.uLeave * (7:ℚ)⌋).toNat < 7 := by omega
    have hall : ∀ i, i < 7 → 8 ≤ GOOD_LEAVES.getD i 0 ∧ GOOD_LEAVES.getD i 0 ≤ 40 := by
      decide
    exact hall _ hlt

/-- A checkout attempt from a score in [0,170] stays in [0,180]. -/
theorem attemptCheckout_range (level : BotLevel) (currentScore : ℤ) (d : BotDraws)
    (hd : d.Valid) (hcs0 : 0 ≤ currentScore) (hcs1 : currentScore ≤ 170) :
    0 ≤ attemptCheckout level currentScore d ∧
      attemptCheckout level currentScore d ≤ 180 := by
  obtain ⟨-, -, hv0, hv1, -, -⟩ := hd
  obtain ⟨hf0, hf1⟩ := floor_unit_mul_bounds d.uVariance 10 (by norm_num) hv0 hv1
  have hf1i : ⌊d.uVariance * (10:ℚ)⌋ < (10:ℤ) := by exact_mod_cast hf1
  unfold attemptCheckout
  simp only []
  split_ifs with hroll h40
  · omega
  · have hhalf : ⌊(currentScore : ℚ) / 2⌋ ≤ 20 := by
      have hq : (currentScore : ℚ) / 2 ≤ 20 := by
        have h40q : (currentScore : ℚ) ≤ 40 := by exact_mod_cast h40
        linarith
      calc ⌊(currentScore : ℚ) / 2⌋ ≤ ⌊(20 : ℚ)⌋ := Int.floor_le_floor hq
        _ = 20 := by norm_num
    constructor
    · exact le_max_left 0 _
    · exact max_le (by norm_num) (by omega)
  all_goals exact ⟨le_max_left 0 _, max_le (by norm_num) (min_le_left _ _)⟩

/-- A scoring-phase visit from a nonnegative score stays in [0,180]. -/
theorem generateScoringVisit_range (level : BotLevel) (currentScore : ℤ)
    (d : BotDraws) (hd : d.Valid) (hcs0 : 0 ≤ currentScore) :
    0 ≤ generateScoringVisit level currentScore d ∧
      generateScoringVisit level currentScore d ≤ 180 := by
  obtain ⟨hl0, hl1⟩ := getIdealLeave_bounds level d hd
  have hclamp0 : 0 ≤ max 0 (min 180 (round (level.avg + d.z * level.consistency))) :=
    le_max_left 0 _
  have hclamp1 : max 0 (min 180 (round (level.avg + d.z * level.consistency))) ≤ 180 :=
    max_le (by norm_num) (min_le_left _ _)
  unfold generateScoringVisit
  simp only []
  split_ifs with hnear hleave
  · omega
  · obtain ⟨hnear1, hnear2⟩ := hnear
    constructor
    · exact le_max_left 0 _
    · exact max_le (by norm_num) (by omega)
  · exact ⟨hclamp0, hclamp1⟩

/-- C8 counterexample: the beginner bot asked for a visit at the (negative)
remaining score -1 with a winning checkout roll returns -1, outside [0,180]. -/
theorem generateScore_range_counterexample :
    (⟨1, "beginner", "Beginner", 30, 1/20, 30⟩ : BotLevel) ∈ BOT_LEVELS ∧
    BotDraws.Valid ⟨0, 0, 0, 0⟩ ∧
    generateScore ⟨1, "beginner", "Beginner", 30, 1/20, 30⟩ (-1) ⟨0, 0, 0, 0⟩ = -1 := by
  refine ⟨?_, ?_, ?_⟩
  · unfold BOT_LEVELS
    exact List.mem_cons_self _ _
  · exact ⟨le_refl 0, by norm_num, le_refl 0, by norm_num, le_refl 0, by norm_num⟩
  · unfold generateScore
    rw [if_pos (by decide)]
    unfold attemptCheckout
    rw [if_pos (by norm_num)]

/-- C8 (amended): for every catalogue bot level, every nonnegative remaining
score and every valid sequence of random draws, `generateScore` returns a
value in [0,180]. (Negative remaining scores can be echoed back verbatim by a
successful checkout roll, as the counterexample shows.) -/
theorem generateScore_range (level : BotLevel) (hlevel : level ∈ BOT_LEVELS)
    (currentScore : ℤ) (hcs : 0 ≤ currentScore) (d : BotDraws) (hd : d.Valid) :
    0 ≤ generateScore level currentScore d ∧
      generateScore level currentScore d ≤ 180 := by
  unfold generateScore
  simp only []
  split_ifs with hcheck
  · have hcs170 : currentScore ≤ 170 := by
      rcases Bool.and_eq_true_iff.mp hcheck with ⟨hle, -⟩
      exact_mod_cast of_decide_eq_true hle
    exact attemptCheckout_range level currentScore d hd hcs hcs170
  · exact generateScoringVisit_range level currentScore d hd hcs

/-- C8 witness: the Dartbot-3000 profile at 501 with all-zero draws produces
an in-range visit. -/
theorem generateScore_range_witness :
    0 ≤ generateScore ⟨6, "dartbot_3000", "Dartbot 3000", 110, 9/10, 12⟩ 501 ⟨0, 0, 0, 0⟩ ∧
      generateScore ⟨6, "dartbot_3000", "Dartbot 3000", 110, 9/10, 12⟩ 501 ⟨0, 0, 0, 0⟩ ≤ 180 :=
  generateScore_range ⟨6, "dartbot_3000", "Dartbot 3000", 110, 9/10, 12⟩
    (by unfold BOT_LEVELS; simp)
    501 (by norm_num)
    ⟨0, 0, 0, 0⟩
    ⟨le_refl 0, by norm_num, le_refl 0, by norm_num, le_refl 0, by norm_num⟩

end DartsApp
